import Mathlib

/-!
Verification of the webhook ingestion and retrieval relay.

Shallow embedding of the backend sources:
- `src/unnamed/part_002` (`src/utils/signature.ts`): `verifySignature`.
- `src/unnamed/part_003` (`src/store/fileStore.ts`): `getFilename`,
  `saveConversationPayload`, `getAllConversations`, `getConversationById`.
- `src/unnamed/part_004` (`src/routes/conversations.ts`): retrieval routes.
- `src/unnamed/part_005` (`src/routes/webhooks.ts`): ingestion handler.

Bytes are `Nat` values below 256; byte buffers are `List Nat`.  The Node
library primitives used by the code (SHA-256 / HMAC from `crypto`, hex and
UTF-8 codecs from `Buffer`, the string ordering used by `Array.sort`) are
given executable models below, faithful to their documented semantics.
JavaScript's `JSON.parse` and `Number()` are passed in as explicit function
parameters (`parseJson`, `parseNum`), since the code only branches on their
results; `decNumber` is a concrete instance of `Number()` on plain decimal
digit strings, used for closed instances.
-/

set_option maxRecDepth 16384

/-- Truncate to a 32-bit word. -/
def w32 (n : Nat) : Nat := n % 4294967296

/-- 32-bit right rotation of a word `x < 2^32`. -/
def rotr (k x : Nat) : Nat := w32 ((x >>> k) ||| (x <<< (32 - k)))

/-- SHA-256 big Sigma-0. -/
def bsig0 (x : Nat) : Nat := rotr 2 x ^^^ rotr 13 x ^^^ rotr 22 x

/-- SHA-256 big Sigma-1. -/
def bsig1 (x : Nat) : Nat := rotr 6 x ^^^ rotr 11 x ^^^ rotr 25 x

/-- SHA-256 small sigma-0. -/
def ssig0 (x : Nat) : Nat := rotr 7 x ^^^ rotr 18 x ^^^ (x >>> 3)

/-- SHA-256 small sigma-1. -/
def ssig1 (x : Nat) : Nat := rotr 17 x ^^^ rotr 19 x ^^^ (x >>> 10)

/-- SHA-256 choose function; `x ^^^ 4294967295` is 32-bit complement. -/
def chF (x y z : Nat) : Nat := (x &&& y) ^^^ ((x ^^^ 4294967295) &&& z)

/-- SHA-256 majority function. -/
def majF (x y z : Nat) : Nat := (x &&& y) ^^^ (x &&& z) ^^^ (y &&& z)

/-- The 64 SHA-256 round constants (FIPS 180-4). -/
def K256 : List Nat := [1116352408, 1899447441, 3049323471, 3921009573, 961987163, 1508970993, 2453635748, 2870763221, 3624381080, 310598401, 607225278, 1426881987, 1925078388, 2162078206, 2614888103, 3248222580, 3835390401, 4022224774, 264347078, 604807628, 770255983, 1249150122, 1555081692, 1996064986, 2554220882, 2821834349, 2952996808, 3210313671, 3336571891, 3584528711, 113926993, 338241895, 666307205, 773529912, 1294757372, 1396182291, 1695183700, 1986661051, 2177026350, 2456956037, 2730485921, 2820302411, 3259730800, 3345764771, 3516065817, 3600352804, 4094571909, 275423344, 430227734, 506948616, 659060556, 883997877, 958139571, 1322822218, 1537002063, 1747873779, 1955562222, 2024104815, 2227730452, 2361852424, 2428436474, 2756734187, 3204031479, 3329325298]

/-- The SHA-256 initial hash value (FIPS 180-4). -/
def H256 : List Nat := [1779033703, 3144134277, 1013904242, 2773480762, 1359893119, 2600822924, 528734635, 1541459225]

/-- Big-endian 4-byte encoding of a 32-bit word. -/
def be32 (n : Nat) : List Nat := [(n >>> 24) &&& 255, (n >>> 16) &&& 255, (n >>> 8) &&& 255, n &&& 255]

/-- Big-endian 8-byte encoding of a 64-bit value. -/
def be64 (n : Nat) : List Nat :=
  [(n >>> 56) &&& 255, (n >>> 48) &&& 255, (n >>> 40) &&& 255, (n >>> 32) &&& 255,
   (n >>> 24) &&& 255, (n >>> 16) &&& 255, (n >>> 8) &&& 255, n &&& 255]

/-- SHA-256 message padding: append 0x80, zero bytes, and the 64-bit
big-endian bit length, reaching a multiple of 64 bytes. -/
def sha256Pad (msg : List Nat) : List Nat :=
  msg ++ [128] ++ List.replicate ((119 - msg.length % 64) % 64) 0 ++ be64 (8 * msg.length)

/-- Group bytes into big-endian 32-bit words (length a multiple of 4). -/
def bytesToWords : List Nat → List Nat
  | a :: b :: c :: d :: rest => (((a * 256 + b) * 256 + c) * 256 + d) :: bytesToWords rest
  | _ => []

/-- Group words into 16-word blocks (length a multiple of 16). -/
def toBlocks16 : List Nat → List (List Nat)
  | w0 :: w1 :: w2 :: w3 :: w4 :: w5 :: w6 :: w7 :: w8 :: w9 :: w10 :: w11 :: w12 :: w13 :: w14 :: w15 :: rest =>
    [w0, w1, w2, w3, w4, w5, w6, w7, w8, w9, w10, w11, w12, w13, w14, w15] :: toBlocks16 rest
  | _ => []

/-- Extend a 16-word block to the 64-word SHA-256 message schedule.  The
accumulator is kept newest-first, so `getD 1`, `getD 6`, `getD 14`, `getD 15`
are `w[t-2]`, `w[t-7]`, `w[t-15]`, `w[t-16]`. -/
def msgSchedule (block : List Nat) : List Nat :=
  ((List.range 48).foldl (fun acc _ =>
    w32 (acc.getD 15 0 + ssig0 (acc.getD 14 0) + acc.getD 6 0 + ssig1 (acc.getD 1 0)) :: acc)
    block.reverse).reverse

/-- Working state `(a, b, c, d, e, f, g, h)` of the SHA-256 compression. -/
abbrev Sha256State := Nat × Nat × Nat × Nat × Nat × Nat × Nat × Nat

/-- One SHA-256 round, consuming one `(round constant, schedule word)` pair. -/
def roundStep (st : Sha256State) (kw : Nat × Nat) : Sha256State :=
  let (a, b, c, d, e, f, g, h) := st
  let t1 := w32 (h + bsig1 e + chF e f g + kw.1 + kw.2)
  let t2 := w32 (bsig0 a + majF a b c)
  (w32 (t1 + t2), a, b, c, w32 (d + t1), e, f, g)

/-- SHA-256 block compression applied to an 8-word hash value. -/
def compressBlock (hv : List Nat) (block : List Nat) : List Nat :=
  let ws := msgSchedule block
  let init : Sha256State :=
    (hv.getD 0 0, hv.getD 1 0, hv.getD 2 0, hv.getD 3 0, hv.getD 4 0, hv.getD 5 0, hv.getD 6 0, hv.getD 7 0)
  let fin := (K256.zip ws).foldl roundStep init
  let (a, b, c, d, e, f, g, h) := fin
  [w32 (hv.getD 0 0 + a), w32 (hv.getD 1 0 + b), w32 (hv.getD 2 0 + c), w32 (hv.getD 3 0 + d),
   w32 (hv.getD 4 0 + e), w32 (hv.getD 5 0 + f), w32 (hv.getD 6 0 + g), w32 (hv.getD 7 0 + h)]

/-- SHA-256 of a byte list, as a 32-byte list (model of Node `crypto`
digests; matches FIPS 180-4 test vectors). -/
def sha256 (msg : List Nat) : List Nat :=
  ((toBlocks16 (bytesToWords (sha256Pad msg))).foldl compressBlock H256).foldr
    (fun w acc => be32 w ++ acc) []

/-- HMAC-SHA256 (RFC 2104) with the 64-byte SHA-256 block size; model of
Node `crypto.createHmac('sha256', key)`. -/
def hmacSha256 (key msg : List Nat) : List Nat :=
  let k0 := if key.length > 64 then sha256 key else key
  let kp := k0 ++ List.replicate (64 - k0.length) 0
  sha256 ((kp.map (fun b => b ^^^ 92)) ++ sha256 ((kp.map (fun b => b ^^^ 54)) ++ msg))

/-- Lowercase hex digit for a value below 16 (Node `digest('hex')` digits). -/
def hexChar (n : Nat) : Char := if n < 10 then Char.ofNat (48 + n) else Char.ofNat (87 + n)

/-- Lowercase hex encoding of a byte list; model of Node `digest('hex')` /
`Buffer.toString('hex')`. -/
def hexEncode (bs : List Nat) : String :=
  String.mk (bs.foldr (fun b acc => hexChar (b / 16 % 16) :: hexChar (b % 16) :: acc) [])

/-- Value of a hex digit, case-insensitive, as in Node's hex decoder. -/
def hexDigitVal (c : Char) : Option Nat :=
  if 48 ≤ c.toNat ∧ c.toNat ≤ 57 then some (c.toNat - 48)
  else if 97 ≤ c.toNat ∧ c.toNat ≤ 102 then some (c.toNat - 87)
  else if 65 ≤ c.toNat ∧ c.toNat ≤ 70 then some (c.toNat - 55)
  else none

/-- Node `Buffer.from(s, 'hex')` semantics: decode consecutive pairs of hex
digits (either case) and stop at the first pair that is not two hex digits;
a trailing odd digit is dropped. -/
def hexDecodeCore : List Char → List Nat
  | c1 :: c2 :: rest =>
    (match hexDigitVal c1, hexDigitVal c2 with
     | some hi, some lo => (16 * hi + lo) :: hexDecodeCore rest
     | _, _ => [])
  | _ => []

/-- Node `Buffer.from(s, 'hex')` on a string. -/
def hexDecodeNode (s : String) : List Nat := hexDecodeCore s.data

/-- UTF-8 encoding of one character. -/
def utf8Char (c : Char) : List Nat :=
  let n := c.toNat
  if n < 128 then [n]
  else if n < 2048 then [192 + n / 64, 128 + n % 64]
  else if n < 65536 then [224 + n / 4096, 128 + n / 64 % 64, 128 + n % 64]
  else [240 + n / 262144, 128 + n / 4096 % 64, 128 + n / 64 % 64, 128 + n % 64]

/-- UTF-8 bytes of a string; model of Node `Buffer.from(s, 'utf8')` and of
`hmac.update(string)`. -/
def utf8Bytes (s : String) : List Nat := s.data.foldr (fun c acc => utf8Char c ++ acc) []

/-- Strip the `sha256=` scheme label from a provided signature header, as in
`signature.startsWith('sha256=') ? signature.slice('sha256='.length) : signature`
(src/unnamed/part_002 line 25). -/
def stripSigScheme (s : String) : String :=
  if ("sha256=".data).isPrefixOf s.data then String.mk (s.data.drop 7) else s

/-- The digest comparison of src/unnamed/part_002 lines 27-30:
`if (a.length !== b.length) return false; return crypto.timingSafeEqual(a, b)`,
where `timingSafeEqual` on equal-length buffers is bytewise equality. -/
def compareDigests (a b : List Nat) : Bool :=
  if a.length ≠ b.length then false else a == b

/-- Model of ECMAScript `Number()` restricted to nonempty strings of decimal
digits (the shape of the `ElevenLabs-Timestamp` header); every other string
is mapped to `none` (the code only asks whether the result is finite).
Used to instantiate the abstract `parseNum` parameter at concrete inputs. -/
def decNumber (s : String) : Option Int :=
  if s ≠ "" ∧ s.data.all (fun c => 48 ≤ c.toNat && c.toNat ≤ 57)
  then some (s.data.foldl (fun acc c => 10 * acc + ((c.toNat : Int) - 48)) 0)
  else none

/-- Embedding of `verifySignature` (src/unnamed/part_002 lines 11-31).
`parseNum` models `Number()`, `now` models `Math.floor(Date.now() / 1000)`,
`rawBody` the request body bytes.  `Math.abs(now - ts) > maxSkewSeconds` is
`(now - ts).natAbs > maxSkewSeconds` on integers.  The final comparison
models `a.length !== b.length` followed by `crypto.timingSafeEqual(a, b)`,
whose value on equal-length buffers is bytewise equality. -/
def verifySignature (parseNum : String → Option Int) (now : Int) (rawBody : List Nat)
    (signature timestamp secret : String) (maxSkewSeconds : Nat) : Bool :=
  if signature = "" ∨ timestamp = "" ∨ secret = "" then false
  else
    match parseNum timestamp with
    | none => false
    | some ts =>
      if (now - ts).natAbs > maxSkewSeconds then false
      else
        compareDigests
          (hexDecodeNode (hexEncode (hmacSha256 (utf8Bytes secret) (utf8Bytes timestamp ++ [46] ++ rawBody))))
          (hexDecodeNode (stripSigScheme signature))

/-- Constant-time bytewise comparison with an explicit cost: the model of
`crypto.timingSafeEqual` instrumented with the number of byte comparisons it
performs.  It folds over the whole zip of the two buffers with no early
exit, so the count never depends on the byte values. -/
def timingSafeEqualCT (a b : List Nat) : Bool × Nat :=
  (a.zip b).foldl (fun acc xy => (acc.1 && xy.1 == xy.2, acc.2 + 1)) (true, 0)

/-- The digest comparison instrumented with its byte-comparison count: a
mismatch of decoded lengths fails with zero byte comparisons performed. -/
def compareDigestsCT (a b : List Nat) : Bool × Nat :=
  if a.length ≠ b.length then (false, 0) else timingSafeEqualCT a b

/-- The `verifySignature` embedding instrumented with the number of byte
comparisons performed by the digest comparison; every rejection before the
comparison, including the `a.length !== b.length` guard, performs zero
byte comparisons.  Its Boolean component coincides with `verifySignature`. -/
def verifySignatureCT (parseNum : String → Option Int) (now : Int) (rawBody : List Nat)
    (signature timestamp secret : String) (maxSkewSeconds : Nat) : Bool × Nat :=
  if signature = "" ∨ timestamp = "" ∨ secret = "" then (false, 0)
  else
    match parseNum timestamp with
    | none => (false, 0)
    | some ts =>
      if (now - ts).natAbs > maxSkewSeconds then (false, 0)
      else
        compareDigestsCT
          (hexDecodeNode (hexEncode (hmacSha256 (utf8Bytes secret) (utf8Bytes timestamp ++ [46] ++ rawBody))))
          (hexDecodeNode (stripSigScheme signature))

/-- A webhook payload as far as the code inspects it: the routing fields
`type`, `data.conversation_id`, `event_timestamp` (each possibly absent),
plus `rest`, standing for the remaining JSON fields that the code passes
through verbatim. -/
structure Payload where
  type? : Option String := none
  conversationId? : Option String := none
  eventTimestamp? : Option Nat := none
  rest : String := ""
deriving DecidableEq

/-- The storage directory: an association of filenames to stored contents.
A content of `none` stands for a file whose text `JSON.parse` rejects; a
content of `some p` stands for a file holding the JSON document of `p`. -/
abbrev Store := List (String × Option Payload)

/-- JavaScript UTF-16 code-unit comparison of characters (the units agree
with code points on the strings this code builds). -/
def charLeB (a b : Char) : Bool := a.toNat ≤ b.toNat

/-- Lexicographic comparison of character lists, as used by the default
`Array.prototype.sort()` comparator on strings. -/
def charListLeB : List Char → List Char → Bool
  | [], _ => true
  | _ :: _, [] => false
  | a :: as, b :: bs => if a = b then charListLeB as bs else charLeB a b

/-- String comparison of the default JavaScript `sort()`. -/
def strLeB (a b : String) : Bool := charListLeB a.data b.data

/-- Does `sub` occur as a contiguous run inside the list? -/
def strIncludesCore (sub : List Char) : List Char → Bool
  | [] => sub.isPrefixOf ([] : List Char)
  | c :: cs => sub.isPrefixOf (c :: cs) || strIncludesCore sub cs

/-- Model of JavaScript `s.includes(sub)`. -/
def strIncludes (s sub : String) : Bool := strIncludesCore sub.data s.data

/-- Model of JavaScript `s.endsWith(suffix)`. -/
def strEndsWith (s suffix : String) : Bool := suffix.data.isSuffixOf s.data

/-- The character class kept by the sanitizer `[^a-zA-Z0-9_-]`. -/
def isSafeFilenameChar (c : Char) : Bool :=
  (48 ≤ c.toNat && c.toNat ≤ 57) || (65 ≤ c.toNat && c.toNat ≤ 90) ||
  (97 ≤ c.toNat && c.toNat ≤ 122) || c == '_' || c == '-'

/-- Model of `String(conversationId).replace(/[^a-zA-Z0-9_-]/g, '_')`
(src/unnamed/part_003 line 14). -/
def sanitizeId (s : String) : String :=
  String.mk (s.data.map (fun c => if isSafeFilenameChar c then c else '_'))

/-- Embedding of `getFilename` (src/unnamed/part_003 lines 10-16).  `nowMs`
models `Date.now()`, the default used when `event_timestamp` is absent. -/
def getFilename (p : Payload) (nowMs : Nat) : String :=
  Nat.repr (p.eventTimestamp?.getD nowMs) ++ "_" ++ p.type?.getD "unknown" ++ "_" ++
    sanitizeId (p.conversationId?.getD "no_conversation") ++ ".json"

/-- Embedding of `saveConversationPayload` (src/unnamed/part_003 lines
18-23): `fs.writeFile` into the data directory, overwriting a file of the
same name and otherwise adding a new one. -/
def saveConversationPayload (p : Payload) (nowMs : Nat) (store : Store) : Store :=
  let fn := getFilename p nowMs
  if store.any (fun e => e.1 == fn)
  then store.map (fun e => if e.1 == fn then (fn, some p) else e)
  else store ++ [(fn, some p)]

/-- The `.json`-filtered directory listing,
`entries.filter((f) => f.endsWith('.json'))`. -/
def jsonFiles (store : Store) : List String :=
  (store.map Prod.fst).filter (fun f => strEndsWith f ".json")

/-- JavaScript `.sort().reverse()` on a list of names. -/
def sortDescending (files : List String) : List String :=
  (List.insertionSort (fun a b => strLeB a b = true) files).reverse

/-- The filenames `getAllConversations` will read:
`entries.filter(...).sort().reverse().slice(0, limit)`. -/
def selectedFiles (store : Store) (limit : Nat) : List String :=
  (sortDescending (jsonFiles store)).take limit

/-- The read loop of `getAllConversations` (src/unnamed/part_003 lines
32-39): read each file and `try { items.push(JSON.parse(content)) } catch`,
skipping a file whose content does not parse. -/
def readStoredFiles (store : Store) : List String → List Payload
  | [] => []
  | f :: fs =>
    match List.lookup f store with
    | some (some p) => p :: readStoredFiles store fs
    | _ => readStoredFiles store fs

/-- Embedding of `getAllConversations` (src/unnamed/part_003 lines 25-41);
the route passes `limit` explicitly (50), the source default is 100. -/
def getAllConversations (store : Store) (limit : Nat) : List Payload :=
  readStoredFiles store (selectedFiles store limit)

/-- The matched, descending-sorted record names of `getConversationById`:
`entries.filter((f) => f.includes(conversationId) && f.endsWith('.json')).sort().reverse()`. -/
def matchedFiles (store : Store) (conversationId : String) : List String :=
  sortDescending ((store.map Prod.fst).filter
    (fun f => strIncludes f conversationId && strEndsWith f ".json"))

/-- Embedding of `getConversationById` (src/unnamed/part_003 lines 43-54):
no match yields `null`; otherwise the first match is read and parsed, and a
parse failure also yields `null`. -/
def getConversationById (store : Store) (conversationId : String) : Option Payload :=
  match matchedFiles store conversationId with
  | [] => none
  | f :: _ =>
    match List.lookup f store with
    | some (some p) => some p
    | _ => none

/-- Embedding of `GET /conversations/:conversationId` (src/unnamed/part_004
lines 13-20): status 404 with body `{"error":"Not found"}` when
`getConversationById` yields nothing, else status 200 with the payload. -/
def getConversationRoute (store : Store) (conversationId : String) : Nat × Option Payload :=
  match getConversationById store conversationId with
  | none => (404, none)
  | some p => (200, some p)

/-- Embedding of `GET /conversations` (src/unnamed/part_004 lines 7-10). -/
def listConversationsRoute (store : Store) : Nat × List Payload :=
  (200, getAllConversations store 50)

/-- Response of the 500 branch: `{"error":"Webhook secret not configured"}`. -/
def respSecretMissing : Nat × String := (500, "\x7b\"error\":\"Webhook secret not configured\"\x7d")

/-- Response of the 401 branch: `{"error":"Invalid signature"}`. -/
def respInvalidSig : Nat × String := (401, "\x7b\"error\":\"Invalid signature\"\x7d")

/-- Response of the catch branch: `{"error":"Invalid payload"}`. -/
def respInvalidPayload : Nat × String := (400, "\x7b\"error\":\"Invalid payload\"\x7d")

/-- Response of the known-type branch: `{"ok":true}`. -/
def respOk : Nat × String := (200, "\x7b\"ok\":true\x7d")

/-- Response of the unknown-type branch: `{"status":"ignored","reason":"unknown_type"}`. -/
def respIgnored : Nat × String := (202, "\x7b\"status\":\"ignored\",\"reason\":\"unknown_type\"\x7d")

/-- The type classification of the ingestion handler:
`payloadType !== 'post_call_transcription' && payloadType !== 'post_call_audio'`
selects the unknown branch. -/
def knownPayloadType (t : Option String) : Bool :=
  t == some "post_call_transcription" || t == some "post_call_audio"

/-- The try block of the webhook handler (src/unnamed/part_005 lines 9-43).
`parseJson` models `JSON.parse` on the raw body bytes; its `none` result
models the thrown exception, propagated as `none` to the catch. -/
def webhookTryBlock (parseNum : String → Option Int) (parseJson : List Nat → Option Payload)
    (now : Int) (nowMs : Nat) (secret signature timestamp : String) (rawBody : List Nat)
    (store : Store) : Option ((Nat × String) × Store) :=
  if secret = "" then some (respSecretMissing, store)
  else if verifySignature parseNum now rawBody signature timestamp secret 300 = false then
    some (respInvalidSig, store)
  else
    match parseJson rawBody with
    | none => none
    | some payload =>
      let store1 := saveConversationPayload payload nowMs store
      if knownPayloadType payload.type? then some (respOk, store1)
      else some (respIgnored, store1)

/-- Embedding of `POST /webhooks/elevenlabs` (src/unnamed/part_005 lines
8-43): the try block with the catch answering 400 `{"error":"Invalid payload"}`
and leaving the store unchanged.  The result is the HTTP response paired
with the store after the request. -/
def handleWebhook (parseNum : String → Option Int) (parseJson : List Nat → Option Payload)
    (now : Int) (nowMs : Nat) (secret signature timestamp : String) (rawBody : List Nat)
    (store : Store) : (Nat × String) × Store :=
  match webhookTryBlock parseNum parseJson now nowMs secret signature timestamp rawBody store with
  | some r => r
  | none => (respInvalidPayload, store)

/-- Is a payload list ordered newest-first by `event_timestamp` (absent
timestamps read as 0)?  Used to state the retrieval-order claims. -/
def tsSortedDesc : List Payload → Bool
  | [] => true
  | [_] => true
  | p :: q :: rest => (q.eventTimestamp?.getD 0 ≤ p.eventTimestamp?.getD 0) && tsSortedDesc (q :: rest)

/-- The reference HMAC digest of the concrete instance used in closed
witnesses: key `"k"`, signed string `"100."` (timestamp `"100"`, empty body). -/
def digestK100 : List Nat := hmacSha256 (utf8Bytes "k") (utf8Bytes "100" ++ [46])

/-- A 64-character hex string decoding to 32 zero bytes, used as a second
provided signature of equal decoded length. -/
def zeros64 : String := String.mk (List.replicate 64 '0')

/-- Concrete transcription payload with `event_timestamp` 100. -/
def p100c : Payload := { type? := some "t", conversationId? := some "c", eventTimestamp? := some 100 }

/-- Concrete payload with `event_timestamp` 200. -/
def p200c : Payload := { type? := some "t", conversationId? := some "c", eventTimestamp? := some 200 }

/-- Concrete payload with `event_timestamp` 300. -/
def p300c : Payload := { type? := some "t", conversationId? := some "c", eventTimestamp? := some 300 }

/-- Concrete payload with `event_timestamp` 99. -/
def p099c : Payload := { type? := some "t", conversationId? := some "c", eventTimestamp? := some 99 }

/-- Concrete payload whose conversation id attempts path traversal. -/
def pTrav : Payload :=
  { type? := some "post_call_audio", conversationId? := some "../../etc", eventTimestamp? := some 1000 }

/-- Concrete payload with no `event_timestamp` (filename falls back to `Date.now()`). -/
def pNoTsA : Payload := { conversationId? := some "a" }

/-- Concrete payload carrying a sender-assigned seconds-since-epoch timestamp. -/
def pSecB : Payload := { conversationId? := some "b", eventTimestamp? := some 1760227200 }

/-- Concrete payload carrying a smaller seconds-since-epoch timestamp. -/
def pSecD : Payload := { conversationId? := some "d", eventTimestamp? := some 1000000000 }

/-- Concrete known-type payload used by handler and store instances. -/
def pT : Payload := { type? := some "post_call_transcription", conversationId? := some "c", eventTimestamp? := some 5 }

/-- Concrete payload whose conversation id `"n.json"` is resurrected inside
the derived filename by the `.json` suffix. -/
def pNJ : Payload := { type? := some "t", conversationId? := some "n.json", eventTimestamp? := some 5 }

/-- Concrete payload of an unknown type. -/
def pU : Payload := { type? := some "something_else", conversationId? := some "c", eventTimestamp? := some 6 }

/-- Concrete payload whose conversation id contains a path separator. -/
def pAB : Payload := { type? := some "t", conversationId? := some "a/b", eventTimestamp? := some 5 }

/-- Concrete `JSON.parse` outcome: the body does not parse. -/
def pjNone : List Nat → Option Payload := fun _ => none

/-- Concrete `JSON.parse` outcome: the body parses to `pT`. -/
def pjT : List Nat → Option Payload := fun _ => some pT

/-- Concrete `JSON.parse` outcome: the body parses to the unknown-type `pU`. -/
def pjU : List Nat → Option Payload := fun _ => some pU

/-! ### Helper lemmas -/

theorem charToNat_inj {a b : Char} (h : a.toNat = b.toNat) : a = b := by
  have := congrArg Char.ofNat h
  rwa [Char.ofNat_toNat, Char.ofNat_toNat] at this

theorem charListLeB_total : ∀ as bs : List Char, charListLeB as bs = true ∨ charListLeB bs as = true
  | [], _ => Or.inl rfl
  | _ :: _, [] => Or.inr rfl
  | a :: as, b :: bs => by
    by_cases hab : a = b
    · subst hab
      simpa [charListLeB] using charListLeB_total as bs
    · have hba : ¬ b = a := fun h => hab h.symm
      simp only [charListLeB, if_neg hab, if_neg hba, charLeB]
      rcases Nat.le_total a.toNat b.toNat with h | h
      · exact Or.inl (by simpa using h)
      · exact Or.inr (by simpa using h)

theorem charListLeB_trans :
    ∀ as bs cs : List Char,
      charListLeB as bs = true → charListLeB bs cs = true → charListLeB as cs = true
  | [], _, _, _, _ => rfl
  | _ :: _, [], _, h1, _ => by simp [charListLeB] at h1
  | _ :: _, _ :: _, [], _, h2 => by simp [charListLeB] at h2
  | a :: as, b :: bs, c :: cs, h1, h2 => by
    by_cases hab : a = b <;> by_cases hbc : b = c
    · subst hab; subst hbc
      simp only [charListLeB, if_pos rfl] at h1 h2 ⊢
      exact charListLeB_trans as bs cs h1 h2
    · subst hab
      simpa [charListLeB, hbc] using h2
    · subst hbc
      simpa [charListLeB, hab] using h1
    · simp only [charListLeB, if_neg hab, if_neg hbc, charLeB, decide_eq_true_eq] at h1 h2
      have hac : ¬ a = c := by
        intro h
        subst h
        exact hab (charToNat_inj (Nat.le_antisymm h1 h2))
      simp only [charListLeB, if_neg hac, charLeB, decide_eq_true_eq]
      exact Nat.le_trans h1 h2

instance strLeTotal : IsTotal String (fun a b => strLeB a b = true) :=
  ⟨fun a b => charListLeB_total a.data b.data⟩

instance strLeTrans : IsTrans String (fun a b => strLeB a b = true) :=
  ⟨fun a b c h1 h2 => charListLeB_trans a.data b.data c.data h1 h2⟩

theorem sortDescending_pairwise (l : List String) :
    List.Pairwise (fun a b => strLeB b a = true) (sortDescending l) := by
  unfold sortDescending
  rw [List.pairwise_reverse]
  exact List.sorted_insertionSort _ l

theorem selectedFiles_pairwise (store : Store) (limit : Nat) :
    List.Pairwise (fun a b => strLeB b a = true) (selectedFiles store limit) :=
  (sortDescending_pairwise (jsonFiles store)).take

theorem hexDigitVal_hexChar : ∀ d : Nat, d < 16 → hexDigitVal (hexChar d) = some d := by
  intro d hd
  interval_cases d <;> decide

theorem hexDecodeCore_hexEncode :
    ∀ bs : List Nat, (∀ b ∈ bs, b < 256) → hexDecodeCore (hexEncode bs).data = bs := by
  intro bs
  induction bs with
  | nil => intro _; rfl
  | cons b bs ih =>
    intro h
    have hb : b < 256 := h b (List.mem_cons_self b bs)
    show hexDecodeCore (hexChar (b / 16 % 16) :: hexChar (b % 16) :: (hexEncode bs).data) = b :: bs
    rw [hexDecodeCore, hexDigitVal_hexChar (b / 16 % 16) (by omega),
      hexDigitVal_hexChar (b % 16) (by omega)]
    have hrest := ih (fun x hx => h x (List.mem_cons_of_mem b hx))
    simp only [hrest]
    congr 1
    omega

theorem mem_be32_lt (n : Nat) : ∀ b ∈ be32 n, b < 256 := by
  intro b hb
  simp only [be32, List.mem_cons, List.not_mem_nil, or_false] at hb
  rcases hb with h | h | h | h <;>
    { subst h; exact Nat.lt_succ_of_le (Nat.and_le_right) }

theorem mem_foldr_be32 (hv : List Nat) (b : Nat)
    (hb : b ∈ hv.foldr (fun w acc => be32 w ++ acc) []) : ∃ w, b ∈ be32 w := by
  induction hv with
  | nil => simp at hb
  | cons w hv ih =>
    simp only [List.foldr_cons, List.mem_append] at hb
    rcases hb with h | h
    · exact ⟨w, h⟩
    · exact ih h

theorem sha256_mem_lt (msg : List Nat) : ∀ b ∈ sha256 msg, b < 256 := by
  intro b hb
  obtain ⟨w, hw⟩ := mem_foldr_be32 _ b hb
  exact mem_be32_lt w b hw

theorem compressBlock_length (hv block : List Nat) : (compressBlock hv block).length = 8 := rfl

theorem foldl_compressBlock_length :
    ∀ (blocks : List (List Nat)) (hv : List Nat), hv.length = 8 →
      (blocks.foldl compressBlock hv).length = 8
  | [], _, h => h
  | b :: blocks, hv, _ =>
    foldl_compressBlock_length blocks (compressBlock hv b) (compressBlock_length hv b)

theorem foldr_be32_length (hv : List Nat) :
    (hv.foldr (fun w acc => be32 w ++ acc) []).length = 4 * hv.length := by
  induction hv with
  | nil => rfl
  | cons w hv ih =>
    simp only [List.foldr_cons, List.length_append, ih, List.length_cons]
    simp [be32]
    omega

theorem sha256_length (msg : List Nat) : (sha256 msg).length = 32 := by
  unfold sha256
  rw [foldr_be32_length, foldl_compressBlock_length _ H256 (by decide)]

theorem hmacSha256_length (key msg : List Nat) : (hmacSha256 key msg).length = 32 :=
  sha256_length _

theorem hmacSha256_mem_lt (key msg : List Nat) : ∀ b ∈ hmacSha256 key msg, b < 256 :=
  sha256_mem_lt _

theorem hexDecodeNode_hexEncode_hmac (key msg : List Nat) :
    hexDecodeNode (hexEncode (hmacSha256 key msg)) = hmacSha256 key msg :=
  hexDecodeCore_hexEncode _ (hmacSha256_mem_lt key msg)

theorem hexDecodeNode_empty : hexDecodeNode "" = [] := rfl

theorem stripSigScheme_empty : stripSigScheme "" = "" := rfl

theorem verifySignature_gates (pn : String → Option Int) (now ts : Int) (rb : List Nat)
    (sig T S : String) (skew : Nat) (hT : T ≠ "") (hS : S ≠ "")
    (hp : pn T = some ts) (hsk : (now - ts).natAbs ≤ skew) :
    verifySignature pn now rb sig T S skew =
      (hexDecodeNode (stripSigScheme sig) ==
        hmacSha256 (utf8Bytes S) (utf8Bytes T ++ [46] ++ rb)) := by
  by_cases hsig : sig = ""
  · subst hsig
    have h1 : verifySignature pn now rb "" T S skew = false := by
      unfold verifySignature
      rw [if_pos (Or.inl rfl)]
    rw [h1, stripSigScheme_empty, hexDecodeNode_empty]
    symm
    rw [beq_eq_false_iff_ne]
    intro h
    have h32 := hmacSha256_length (utf8Bytes S) (utf8Bytes T ++ [46] ++ rb)
    rw [← h] at h32
    simp at h32
  · unfold verifySignature
    rw [if_neg (by simp [hsig, hT, hS]), hp]
    dsimp only
    rw [if_neg (show ¬ (now - ts).natAbs > skew by omega)]
    rw [hexDecodeNode_hexEncode_hmac]
    unfold compareDigests
    by_cases hb : hexDecodeNode (stripSigScheme sig) = hmacSha256 (utf8Bytes S) (utf8Bytes T ++ [46] ++ rb)
    · rw [hb]
      simp
    · rw [beq_eq_false_iff_ne.mpr hb]
      by_cases hl : (hmacSha256 (utf8Bytes S) (utf8Bytes T ++ [46] ++ rb)).length =
          (hexDecodeNode (stripSigScheme sig)).length
      · rw [if_neg (fun hne => hne hl),
          beq_eq_false_iff_ne.mpr (fun h => hb h.symm)]
      · rw [if_pos hl]

theorem foldl_ct_snd (l : List (Nat × Nat)) :
    ∀ (b0 : Bool) (n0 : Nat),
      ((l.foldl (fun acc xy => (acc.1 && xy.1 == xy.2, acc.2 + 1)) (b0, n0)).2 = n0 + l.length) := by
  induction l with
  | nil => intro b0 n0; simp
  | cons xy l ih =>
    intro b0 n0
    rw [List.foldl_cons, ih]
    simp only [List.length_cons]
    omega

theorem foldl_ct_fst (l : List (Nat × Nat)) :
    ∀ (b0 : Bool) (n0 : Nat),
      ((l.foldl (fun acc xy => (acc.1 && xy.1 == xy.2, acc.2 + 1)) (b0, n0)).1 =
        (b0 && l.all (fun xy => xy.1 == xy.2))) := by
  induction l with
  | nil => intro b0 n0; simp
  | cons xy l ih =>
    intro b0 n0
    rw [List.foldl_cons, ih, List.all_cons, Bool.and_assoc]

theorem timingSafeEqualCT_snd (a b : List Nat) :
    (timingSafeEqualCT a b).2 = (a.zip b).length := by
  unfold timingSafeEqualCT
  rw [foldl_ct_snd]
  omega

theorem timingSafeEqualCT_fst (a b : List Nat) :
    (timingSafeEqualCT a b).1 = (a.zip b).all (fun xy => xy.1 == xy.2) := by
  unfold timingSafeEqualCT
  rw [foldl_ct_fst, Bool.true_and]

theorem zip_all_beq_of_length :
    ∀ (a b : List Nat), a.length = b.length →
      ((a.zip b).all (fun xy => xy.1 == xy.2) = (a == b))
  | [], [], _ => rfl
  | [], _ :: _, h => by simp at h
  | _ :: _, [], h => by simp at h
  | x :: a, y :: b, h => by
    have hlen : a.length = b.length := by simpa using h
    show ((x == y) && (a.zip b).all (fun xy => xy.1 == xy.2)) = ((x == y) && (a == b))
    rw [zip_all_beq_of_length a b hlen]

theorem timingSafeEqualCT_fst_eq_beq (a b : List Nat) (h : a.length = b.length) :
    (timingSafeEqualCT a b).1 = (a == b) := by
  rw [timingSafeEqualCT_fst, zip_all_beq_of_length a b h]

theorem verifySignatureCT_fst (pn : String → Option Int) (now : Int) (rb : List Nat)
    (sig T S : String) (skew : Nat) :
    (verifySignatureCT pn now rb sig T S skew).1 = verifySignature pn now rb sig T S skew := by
  unfold verifySignature verifySignatureCT
  by_cases h1 : sig = "" ∨ T = "" ∨ S = ""
  · rw [if_pos h1, if_pos h1]
  · rw [if_neg h1, if_neg h1]
    cases hp : pn T with
    | none => rfl
    | some ts =>
      dsimp only
      by_cases h2 : (now - ts).natAbs > skew
      · rw [if_pos h2, if_pos h2]
      · rw [if_neg h2, if_neg h2]
        unfold compareDigests compareDigestsCT
        by_cases h3 : (hexDecodeNode (hexEncode (hmacSha256 (utf8Bytes S) (utf8Bytes T ++ [46] ++ rb)))).length ≠
            (hexDecodeNode (stripSigScheme sig)).length
        · rw [if_pos h3, if_pos h3]
        · rw [if_neg h3, if_neg h3]
          exact timingSafeEqualCT_fst_eq_beq _ _ (not_ne_iff.mp h3)

theorem readStoredFiles_eq (store : Store) :
    ∀ l : List String,
      readStoredFiles store l = l.filterMap (fun f => (List.lookup f store).bind fun c => c)
  | [] => rfl
  | f :: fs => by
    rw [readStoredFiles]
    cases h : List.lookup f store with
    | none => simp [List.filterMap_cons, h, readStoredFiles_eq store fs]
    | some c =>
      cases c with
      | none => simp [List.filterMap_cons, h, readStoredFiles_eq store fs]
      | some p => simp [List.filterMap_cons, h, readStoredFiles_eq store fs]

theorem strIncludesCore_of_isPrefix {sub l : List Char} (h : sub <+: l) :
    strIncludesCore sub l = true := by
  cases l with
  | nil =>
    have hs : sub = [] := List.prefix_nil.mp h
    subst hs
    rfl
  | cons c cs =>
    show (sub.isPrefixOf (c :: cs) || strIncludesCore sub cs) = true
    rw [Bool.or_eq_true]
    exact Or.inl (List.isPrefixOf_iff_prefix.mpr h)

theorem strIncludesCore_of_infix {sub l : List Char} (h : sub <:+: l) :
    strIncludesCore sub l = true := by
  obtain ⟨s, t, rfl⟩ := h
  induction s with
  | nil => exact strIncludesCore_of_isPrefix (List.prefix_append sub t)
  | cons c s ih =>
    show (sub.isPrefixOf (c :: (s ++ sub ++ t)) || strIncludesCore sub (s ++ sub ++ t)) = true
    rw [Bool.or_eq_true]
    exact Or.inr ih

theorem sortDescending_eq_nil_iff (l : List String) : sortDescending l = [] ↔ l = [] := by
  unfold sortDescending
  rw [List.reverse_eq_nil_iff]
  constructor
  · intro h
    have hperm := List.perm_insertionSort (fun a b => strLeB a b = true) l
    rw [h] at hperm
    exact hperm.symm.eq_nil
  · intro h
    subst h
    rfl

theorem strData_append (a b : String) : (a ++ b).data = a.data ++ b.data := rfl

theorem verifySignatureCT_gates (pn : String → Option Int) (now ts : Int) (rb : List Nat)
    (sig T S : String) (skew : Nat) (hsig : sig ≠ "") (hT : T ≠ "") (hS : S ≠ "")
    (hp : pn T = some ts) (hsk : (now - ts).natAbs ≤ skew) :
    verifySignatureCT pn now rb sig T S skew =
      compareDigestsCT (hmacSha256 (utf8Bytes S) (utf8Bytes T ++ [46] ++ rb))
        (hexDecodeNode (stripSigScheme sig)) := by
  unfold verifySignatureCT
  rw [if_neg (by simp [hsig, hT, hS]), hp]
  dsimp only
  rw [if_neg (show ¬ (now - ts).natAbs > skew by omega), hexDecodeNode_hexEncode_hmac]

theorem verifySignatureCT_snd_eq (pn : String → Option Int) (now ts : Int) (rb : List Nat)
    (sig T S : String) (skew : Nat) (hT : T ≠ "") (hS : S ≠ "")
    (hp : pn T = some ts) (hsk : (now - ts).natAbs ≤ skew) :
    (verifySignatureCT pn now rb sig T S skew).2 =
      if sig ≠ "" ∧ (hexDecodeNode (stripSigScheme sig)).length = 32 then 32 else 0 := by
  by_cases hsig : sig = ""
  · subst hsig
    have h0 : verifySignatureCT pn now rb "" T S skew = (false, 0) := by
      unfold verifySignatureCT
      rw [if_pos (Or.inl rfl)]
    rw [h0, if_neg (fun h => h.1 rfl)]
  · rw [verifySignatureCT_gates pn now ts rb sig T S skew hsig hT hS hp hsk]
    unfold compareDigestsCT
    have h32 : (hmacSha256 (utf8Bytes S) (utf8Bytes T ++ [46] ++ rb)).length = 32 :=
      hmacSha256_length _ _
    by_cases hb : (hexDecodeNode (stripSigScheme sig)).length = 32
    · rw [if_neg (by omega), if_pos ⟨hsig, hb⟩, timingSafeEqualCT_snd, List.length_zip, h32, hb]
      exact Nat.min_self 32
    · rw [if_pos (by omega), if_neg (fun h => hb h.2)]

/-! ### Claim theorems -/

/-- C1 (amended): for every raw body, every timestamp header that parses to
a finite number within the skew window, and every non-empty secret,
`verifySignature` returns true exactly when the provided signature header,
after stripping an optional `sha256=` prefix, decodes under Node's hex
decoding (case-insensitive, truncating at the first invalid pair) to the
HMAC-SHA256 digest of `timestamp ++ "." ++ body` keyed by the secret.  The
exact lowercase hex encoding of the digest is therefore accepted, but it is
not the only accepted value: any case variant of it is accepted as well, so
the original claim's "any other signature value is rejected" fails. -/
theorem C1_verify_accepts_exactly_hexdecode_of_digest (pn : String → Option Int) (now ts : Int)
    (rawBody : List Nat) (signature T S : String)
    (hT : T ≠ "") (hS : S ≠ "") (hp : pn T = some ts) (hsk : (now - ts).natAbs ≤ 300) :
    verifySignature pn now rawBody signature T S 300 = true ↔
      hexDecodeNode (stripSigScheme signature) =
        hmacSha256 (utf8Bytes S) (utf8Bytes T ++ [46] ++ rawBody) := by
  rw [verifySignature_gates pn now ts rawBody signature T S 300 hT hS hp hsk]
  exact beq_iff_eq

/-- C1 witness: the lowercase hex digest of the concrete instance (secret
`"k"`, timestamp `"100"`, empty body, `now = 100`) is accepted. -/
theorem C1_witness :
    verifySignature decNumber 100 [] (hexEncode digestK100) "100" "k" 300 = true :=
  (C1_verify_accepts_exactly_hexdecode_of_digest decNumber 100 100 [] (hexEncode digestK100)
    "100" "k" (by decide) (by decide) (by decide) (by decide)).mpr (by decide)

/-- C1 counterexample: the uppercase rendering of the very same digest is a
different string from its hex encoding, yet `verifySignature` accepts it, so
acceptance is not limited to the hex encoding of the digest. -/
theorem C1_counterexample :
    verifySignature decNumber 100 []
        "F1C6BBD3BED1CEBE87ACDB91375547C80DC830EE99E3B412FEB3C243A52CD805" "100" "k" 300 = true ∧
      stripSigScheme "F1C6BBD3BED1CEBE87ACDB91375547C80DC830EE99E3B412FEB3C243A52CD805" ≠
        hexEncode (hmacSha256 (utf8Bytes "k") (utf8Bytes "100" ++ [46] ++ [])) :=
  ⟨by decide, by decide⟩

/-- C2: the digest comparison is constant-time in the model.  First, the
instrumented `verifySignatureCT` computes the same Boolean as
`verifySignature`; its comparison folds over the entire zip of the decoded
buffers with no early exit.  Second, under a fixed body, timestamp and
secret, two provided signatures of equal decoded byte length cost the same
number of byte comparisons, whatever their content.  Third, when the
decoded byte lengths of provided and expected digests differ, verification
returns false having performed zero byte comparisons. -/
theorem C2_comparison_constant_time :
    (∀ (pn : String → Option Int) (now : Int) (rb : List Nat) (sig T S : String) (skew : Nat),
      (verifySignatureCT pn now rb sig T S skew).1 = verifySignature pn now rb sig T S skew) ∧
    (∀ (pn : String → Option Int) (now ts : Int) (rb : List Nat) (sig1 sig2 T S : String),
      T ≠ "" → S ≠ "" → pn T = some ts → (now - ts).natAbs ≤ 300 →
      (hexDecodeNode (stripSigScheme sig1)).length = (hexDecodeNode (stripSigScheme sig2)).length →
      (verifySignatureCT pn now rb sig1 T S 300).2 = (verifySignatureCT pn now rb sig2 T S 300).2) ∧
    (∀ (pn : String → Option Int) (now ts : Int) (rb : List Nat) (sig T S : String),
      sig ≠ "" → T ≠ "" → S ≠ "" → pn T = some ts → (now - ts).natAbs ≤ 300 →
      (hexDecodeNode (stripSigScheme sig)).length ≠
        (hmacSha256 (utf8Bytes S) (utf8Bytes T ++ [46] ++ rb)).length →
      verifySignatureCT pn now rb sig T S 300 = (false, 0)) := by
  refine ⟨verifySignatureCT_fst, ?_, ?_⟩
  · intro pn now ts rb sig1 sig2 T S hT hS hp hsk hlen
    rw [verifySignatureCT_snd_eq pn now ts rb sig1 T S 300 hT hS hp hsk,
      verifySignatureCT_snd_eq pn now ts rb sig2 T S 300 hT hS hp hsk]
    have hiff : (sig1 ≠ "" ∧ (hexDecodeNode (stripSigScheme sig1)).length = 32) ↔
        (sig2 ≠ "" ∧ (hexDecodeNode (stripSigScheme sig2)).length = 32) := by
      constructor
      · rintro ⟨_, h1⟩
        have h2 : (hexDecodeNode (stripSigScheme sig2)).length = 32 := by omega
        refine ⟨?_, h2⟩
        intro he
        rw [he, stripSigScheme_empty, hexDecodeNode_empty] at h2
        simp at h2
      · rintro ⟨_, h2⟩
        have h1 : (hexDecodeNode (stripSigScheme sig1)).length = 32 := by omega
        refine ⟨?_, h1⟩
        intro he
        rw [he, stripSigScheme_empty, hexDecodeNode_empty] at h1
        simp at h1
    rw [if_congr hiff rfl rfl]
  · intro pn now ts rb sig T S hsig hT hS hp hsk hlen
    rw [verifySignatureCT_gates pn now ts rb sig T S 300 hsig hT hS hp hsk]
    unfold compareDigestsCT
    rw [if_pos (fun h => hlen h.symm)]

/-- C2 witness: two equal-decoded-length signatures (the correct digest and
an all-zero digest) cost the same number of byte comparisons; a provided
signature decoding to a single byte is rejected with zero comparisons. -/
theorem C2_witness :
    (verifySignatureCT decNumber 100 [] (hexEncode digestK100) "100" "k" 300).2 =
      (verifySignatureCT decNumber 100 [] zeros64 "100" "k" 300).2 ∧
    verifySignatureCT decNumber 100 [] "ab" "100" "k" 300 = (false, 0) :=
  ⟨C2_comparison_constant_time.2.1 decNumber 100 100 [] (hexEncode digestK100) zeros64 "100" "k"
      (by decide) (by decide) (by decide) (by decide) (by decide),
    C2_comparison_constant_time.2.2 decNumber 100 100 [] "ab" "100" "k"
      (by decide) (by decide) (by decide) (by decide) (by decide) (by decide)⟩

/-- C3: a timestamp header that does not parse to a finite number is always
rejected; a parsed timestamp with `|now - ts| > 300` is rejected under the
default skew of 300 seconds; and when `|now - ts| ≤ 300` (both boundaries
included) the skew check does not reject: the outcome is exactly the digest
comparison. -/
theorem C3_replay_window :
    (∀ (pn : String → Option Int) (now : Int) (rb : List Nat) (sig T S : String),
      pn T = none → verifySignature pn now rb sig T S 300 = false) ∧
    (∀ (pn : String → Option Int) (now ts : Int) (rb : List Nat) (sig T S : String),
      pn T = some ts → (now - ts).natAbs > 300 → verifySignature pn now rb sig T S 300 = false) ∧
    (∀ (pn : String → Option Int) (now ts : Int) (rb : List Nat) (sig T S : String),
      T ≠ "" → S ≠ "" → pn T = some ts → (now - ts).natAbs ≤ 300 →
      verifySignature pn now rb sig T S 300 =
        (hexDecodeNode (stripSigScheme sig) ==
          hmacSha256 (utf8Bytes S) (utf8Bytes T ++ [46] ++ rb))) := by
  refine ⟨?_, ?_, ?_⟩
  · intro pn now rb sig T S hp
    unfold verifySignature
    by_cases h1 : sig = "" ∨ T = "" ∨ S = ""
    · rw [if_pos h1]
    · rw [if_neg h1, hp]
  · intro pn now ts rb sig T S hp hgt
    unfold verifySignature
    by_cases h1 : sig = "" ∨ T = "" ∨ S = ""
    · rw [if_pos h1]
    · rw [if_neg h1, hp]
      dsimp only
      rw [if_pos hgt]
  · intro pn now ts rb sig T S hT hS hp hsk
    exact verifySignature_gates pn now ts rb sig T S 300 hT hS hp hsk

/-- C3 witness: with the correct digest, both boundaries `now - ts = 300`
and `now - ts = -300` are accepted; `now - ts = 301` is rejected, and a
non-numeric timestamp header is rejected. -/
theorem C3_witness :
    verifySignature decNumber 400 [] (hexEncode digestK100) "100" "k" 300 = true ∧
    verifySignature decNumber (-200) [] (hexEncode digestK100) "100" "k" 300 = true ∧
    verifySignature decNumber 401 [] (hexEncode digestK100) "100" "k" 300 = false ∧
    verifySignature decNumber 100 [] (hexEncode digestK100) "x" "k" 300 = false := by
  refine ⟨?_, ?_, ?_, ?_⟩
  · rw [C3_replay_window.2.2 decNumber 400 100 [] (hexEncode digestK100) "100" "k"
      (by decide) (by decide) (by decide) (by decide)]
    decide
  · rw [C3_replay_window.2.2 decNumber (-200) 100 [] (hexEncode digestK100) "100" "k"
      (by decide) (by decide) (by decide) (by decide)]
    decide
  · exact C3_replay_window.2.1 decNumber 401 100 [] (hexEncode digestK100) "100" "k"
      (by decide) (by decide)
  · exact C3_replay_window.1 decNumber 100 [] (hexEncode digestK100) "x" "k" (by decide)

/-- C4: the ingestion handler answers 500 and leaves the store unchanged
when the secret is not configured; 401 and unchanged when verification
fails; 400 and unchanged when the verified body does not parse as JSON;
otherwise it saves the payload and answers 200 `{"ok":true}` for the known
types and 202 `{"status":"ignored","reason":"unknown_type"}` for every
other (or absent) type.  A payload is persisted exactly when the secret is
configured, the signature verifies, and the body parses. -/
theorem C4_webhook_contract :
    ∀ (pn : String → Option Int) (pj : List Nat → Option Payload) (now : Int) (nowMs : Nat)
      (secret sig T : String) (rb : List Nat) (store : Store),
      (secret = "" →
        handleWebhook pn pj now nowMs secret sig T rb store = (respSecretMissing, store)) ∧
      (secret ≠ "" → verifySignature pn now rb sig T secret 300 = false →
        handleWebhook pn pj now nowMs secret sig T rb store = (respInvalidSig, store)) ∧
      (secret ≠ "" → verifySignature pn now rb sig T secret 300 = true → pj rb = none →
        handleWebhook pn pj now nowMs secret sig T rb store = (respInvalidPayload, store)) ∧
      (∀ p, secret ≠ "" → verifySignature pn now rb sig T secret 300 = true → pj rb = some p →
        knownPayloadType p.type? = true →
        handleWebhook pn pj now nowMs secret sig T rb store =
          (respOk, saveConversationPayload p nowMs store)) ∧
      (∀ p, secret ≠ "" → verifySignature pn now rb sig T secret 300 = true → pj rb = some p →
        knownPayloadType p.type? = false →
        handleWebhook pn pj now nowMs secret sig T rb store =
          (respIgnored, saveConversationPayload p nowMs store)) ∧
      ((handleWebhook pn pj now nowMs secret sig T rb store).2 = store ∨
        ∃ p, pj rb = some p ∧ secret ≠ "" ∧ verifySignature pn now rb sig T secret 300 = true ∧
          (handleWebhook pn pj now nowMs secret sig T rb store).2 =
            saveConversationPayload p nowMs store) := by
  intro pn pj now nowMs secret sig T rb store
  refine ⟨?_, ?_, ?_, ?_, ?_, ?_⟩
  · intro h
    unfold handleWebhook webhookTryBlock
    rw [if_pos h]
  · intro h hv
    unfold handleWebhook webhookTryBlock
    rw [if_neg h, if_pos hv]
  · intro h hv hpj
    unfold handleWebhook webhookTryBlock
    rw [if_neg h, if_neg (by simp [hv]), hpj]
  · intro p h hv hpj hk
    unfold handleWebhook webhookTryBlock
    rw [if_neg h, if_neg (by simp [hv]), hpj]
    dsimp only
    rw [if_pos hk]
  · intro p h hv hpj hk
    unfold handleWebhook webhookTryBlock
    rw [if_neg h, if_neg (by simp [hv]), hpj]
    dsimp only
    rw [if_neg (by simp [hk])]
  · by_cases hsec : secret = ""
    · left
      unfold handleWebhook webhookTryBlock
      rw [if_pos hsec]
    · cases hv : verifySignature pn now rb sig T secret 300 with
      | false =>
        left
        unfold handleWebhook webhookTryBlock
        rw [if_neg hsec, if_pos hv]
      | true =>
        cases hpj : pj rb with
        | none =>
          left
          unfold handleWebhook webhookTryBlock
          rw [if_neg hsec, if_neg (by simp [hv]), hpj]
        | some p =>
          right
          refine ⟨p, rfl, hsec, rfl, ?_⟩
          unfold handleWebhook webhookTryBlock
          rw [if_neg hsec, if_neg (by simp [hv]), hpj]
          dsimp only
          by_cases hk : knownPayloadType p.type? = true
          · rw [if_pos hk]
          · rw [if_neg hk]

/-- C4 witness: each of the five response branches at concrete inputs. -/
theorem C4_witness :
    handleWebhook decNumber pjT 100 7 "" "x" "100" [] [] = (respSecretMissing, []) ∧
    handleWebhook decNumber pjT 100 7 "k" "x" "100" [] [] = (respInvalidSig, []) ∧
    handleWebhook decNumber pjNone 100 7 "k" (hexEncode digestK100) "100" [] [] =
      (respInvalidPayload, []) ∧
    handleWebhook decNumber pjT 100 7 "k" (hexEncode digestK100) "100" [] [] =
      (respOk, saveConversationPayload pT 7 []) ∧
    handleWebhook decNumber pjU 100 7 "k" (hexEncode digestK100) "100" [] [] =
      (respIgnored, saveConversationPayload pU 7 []) := by
  refine ⟨?_, ?_, ?_, ?_, ?_⟩
  · exact (C4_webhook_contract decNumber pjT 100 7 "" "x" "100" [] []).1 rfl
  · exact (C4_webhook_contract decNumber pjT 100 7 "k" "x" "100" [] []).2.1
      (by decide) (by decide)
  · exact (C4_webhook_contract decNumber pjNone 100 7 "k" (hexEncode digestK100) "100" [] []).2.2.1
      (by decide) (by decide) rfl
  · exact (C4_webhook_contract decNumber pjT 100 7 "k" (hexEncode digestK100) "100" [] []).2.2.2.1
      pT (by decide) (by decide) rfl (by decide)
  · exact (C4_webhook_contract decNumber pjU 100 7 "k" (hexEncode digestK100) "100" [] []).2.2.2.2.1
      pU (by decide) (by decide) rfl (by decide)

/-- C5 (amended): `getAllConversations` returns payloads in descending
lexicographic filename order (the selected filenames are pairwise
descending under the JavaScript string order); this coincides with
descending numeric `event_timestamp` order when the timestamps have equal
decimal width, as in the spec's example — three payloads saved with
timestamps 100, 300, 200 are listed 300, 200, 100.  It does not coincide
in general (see the counterexample with widths 2 and 3). -/
theorem C5_latest_first_order :
    (∀ (store : Store) (limit : Nat),
      List.Pairwise (fun a b => strLeB b a = true) (selectedFiles store limit)) ∧
    getAllConversations (saveConversationPayload p200c 0 (saveConversationPayload p300c 0
      (saveConversationPayload p100c 0 []))) 3 = [p300c, p200c, p100c] ∧
    tsSortedDesc (getAllConversations (saveConversationPayload p200c 0
      (saveConversationPayload p300c 0 (saveConversationPayload p100c 0 []))) 3) = true :=
  ⟨selectedFiles_pairwise, by decide, by decide⟩

/-- C5 counterexample: with saved timestamps 99 and 100 the listing is not
in descending `event_timestamp` order — `"99_..."` sorts lexically above
`"100_..."`, so the older payload is listed first. -/
theorem C5_counterexample :
    tsSortedDesc (getAllConversations (saveConversationPayload p099c 0
      (saveConversationPayload p100c 0 [])) 2) = false ∧
    (getAllConversations (saveConversationPayload p099c 0
      (saveConversationPayload p100c 0 [])) 2).map (fun p => p.eventTimestamp?) =
      [some 99, some 100] :=
  ⟨by decide, by decide⟩

/-- C6 (amended): `getConversationById` yields the parsed content of the
lexically greatest stored `.json` name containing the id as a substring; it
yields the not-found signal (404 from the route) iff either no stored
`.json` name contains the id, or that first match's content fails to parse
(the original claim omitted the second case). -/
theorem C6_getById_first_match :
    (∀ (store : Store) (id : String),
      matchedFiles store id = [] → getConversationById store id = none) ∧
    (∀ (store : Store) (id f : String) (t : List String),
      matchedFiles store id = f :: t →
      getConversationById store id = ((List.lookup f store).bind fun c => c)) ∧
    (∀ (store : Store) (id : String),
      matchedFiles store id = [] ↔
        ∀ f ∈ store.map Prod.fst, ¬(strIncludes f id = true ∧ strEndsWith f ".json" = true)) ∧
    (∀ (store : Store) (id : String),
      ((getConversationRoute store id).1 = 404 ↔ getConversationById store id = none)) ∧
    (∀ (store : Store) (id : String) (p : Payload),
      getConversationById store id = some p → getConversationRoute store id = (200, some p)) := by
  refine ⟨?_, ?_, ?_, ?_, ?_⟩
  · intro store id h
    unfold getConversationById
    rw [h]
  · intro store id f t h
    unfold getConversationById
    rw [h]
    dsimp only
    cases hl : List.lookup f store with
    | none => rfl
    | some c =>
      cases c with
      | none => rfl
      | some p => rfl
  · intro store id
    unfold matchedFiles
    rw [sortDescending_eq_nil_iff, List.filter_eq_nil_iff]
    simp only [Bool.and_eq_true]
  · intro store id
    unfold getConversationRoute
    cases h : getConversationById store id with
    | none => simp
    | some p => simp
  · intro store id p h
    unfold getConversationRoute
    rw [h]

/-- C6 witness: a store whose only record name does not end in `.json`
yields not-found; a store with one matching record yields its payload. -/
theorem C6_witness :
    getConversationById ([("a.txt", some pT)] : Store) "a" = none ∧
    getConversationById ([("5_t_c.json", some pT)] : Store) "c" = some pT := by
  constructor
  · exact C6_getById_first_match.1 _ "a" (by decide)
  · have h := C6_getById_first_match.2.1 ([("5_t_c.json", some pT)] : Store) "c" "5_t_c.json" []
      (by decide)
    rw [h]
    decide

/-- C6 counterexample: the record name `"abc.json"` contains the id
`"abc"`, yet `getConversationById` signals not-found (404), because the
record's content does not parse — the claimed "if and only if no stored
record name contains the id" fails. -/
theorem C6_counterexample :
    strIncludes "abc.json" "abc" = true ∧ strEndsWith "abc.json" ".json" = true ∧
    getConversationById ([("abc.json", none)] : Store) "abc" = none ∧
    getConversationRoute ([("abc.json", none)] : Store) "abc" = (404, none) :=
  ⟨by decide, by decide, by decide, by decide⟩

theorem sanitizeChar_safe (c : Char) :
    isSafeFilenameChar (if isSafeFilenameChar c then c else '_') = true := by
  by_cases h : isSafeFilenameChar c = true
  · rw [if_pos h]
    exact h
  · rw [if_neg h]
    decide

theorem safeChar_not_sep (c : Char) (h : isSafeFilenameChar c = true) :
    (!(c == '/') && !(c == '.')) = true := by
  by_cases h1 : c = '/'
  · subst h1
    exact absurd h (by decide)
  · by_cases h2 : c = '.'
    · subst h2
      exact absurd h (by decide)
    · rw [beq_eq_false_iff_ne.mpr h1, beq_eq_false_iff_ne.mpr h2]
      rfl

/-- C7: every character of a sanitized conversation id lies in the class
`[A-Za-z0-9_-]`; in particular a sanitized id contains no `/` and no `.`,
so the conversation-id component never escapes the storage directory.  The
id `"../../etc"` sanitizes to `"______etc"`, and the filename follows the
`{event_timestamp}_{type}_{sanitized_conversation_id}.json` shape with
`type` defaulting to `"unknown"` and the id to `"no_conversation"`. -/
theorem C7_sanitization :
    (∀ s : String, (sanitizeId s).data.all isSafeFilenameChar = true) ∧
    (∀ s : String, (sanitizeId s).data.all (fun c => !(c == '/') && !(c == '.')) = true) ∧
    sanitizeId "../../etc" = "______etc" ∧
    getFilename pTrav 0 = "1000_post_call_audio_______etc.json" ∧
    getFilename {} 7 = "7_unknown_no_conversation.json" := by
  refine ⟨?_, ?_, by decide, by decide, by decide⟩
  · intro s
    show (s.data.map fun c => if isSafeFilenameChar c then c else '_').all isSafeFilenameChar = true
    rw [List.all_map, List.all_eq_true]
    intro c _
    simp only [Function.comp_apply]
    exact sanitizeChar_safe c
  · intro s
    show (s.data.map fun c => if isSafeFilenameChar c then c else '_').all
      (fun c => !(c == '/') && !(c == '.')) = true
    rw [List.all_map, List.all_eq_true]
    intro c _
    simp only [Function.comp_apply]
    exact safeChar_not_sep _ (sanitizeChar_safe c)

/-- C8: `getAllConversations` is total and returns exactly the parsed
contents of the selected records, every record whose content fails to parse
being silently omitted (`(List.lookup f store).bind` drops `none`
contents); concretely, a corrupt record alongside a valid one yields just
the valid payload. -/
theorem C8_corrupt_record_skipped :
    (∀ (store : Store) (limit : Nat) (f0 : String),
      (f0, (none : Option Payload)) ∈ store →
      getAllConversations store limit =
        (selectedFiles store limit).filterMap (fun f => (List.lookup f store).bind fun c => c)) ∧
    getAllConversations ([("9_x.json", none), ("5_t_c.json", some pT)] : Store) 100 = [pT] := by
  constructor
  · intro store limit f0 _
    unfold getAllConversations
    exact readStoredFiles_eq store (selectedFiles store limit)
  · decide

/-- C8 witness: the filterMap characterization at the concrete corrupt
store. -/
theorem C8_witness :
    getAllConversations ([("9_x.json", none), ("5_t_c.json", some pT)] : Store) 100 =
      (selectedFiles ([("9_x.json", none), ("5_t_c.json", some pT)] : Store) 100).filterMap
        (fun f => (List.lookup f ([("9_x.json", none), ("5_t_c.json", some pT)] : Store)).bind
          fun c => c) :=
  C8_corrupt_record_skipped.1 _ 100 "9_x.json" (by decide)

/-- C9 (amended): when a payload has no `event_timestamp`, the filename
prefix is indeed `Date.now()` in milliseconds.  But the resulting lexical
ranking against sender-assigned seconds timestamps follows plain string
comparison and can go either way, not always "defaulted is newer": a
10-digit seconds filename whose digits agree with the leading digits of the
13-digit value ranks above it (`'_' > '0'`), while a smaller seconds string
ranks below it. -/
theorem C9_missing_timestamp_ranking :
    (∀ (p : Payload) (nowMs : Nat), p.eventTimestamp? = none →
      getFilename p nowMs = Nat.repr nowMs ++ "_" ++ p.type?.getD "unknown" ++ "_" ++
        sanitizeId (p.conversationId?.getD "no_conversation") ++ ".json") ∧
    getAllConversations (saveConversationPayload pSecB 0
      (saveConversationPayload pNoTsA 1760227200000 [])) 2 = [pSecB, pNoTsA] ∧
    getAllConversations (saveConversationPayload pSecD 0
      (saveConversationPayload pNoTsA 1760227200000 [])) 2 = [pNoTsA, pSecD] := by
  refine ⟨?_, by decide, by decide⟩
  · intro p nowMs h
    unfold getFilename
    rw [h, Option.getD_none]

/-- C9 witness: the default-prefix equation at a concrete payload without
`event_timestamp`. -/
theorem C9_witness :
    getFilename pNoTsA 1760227200000 = Nat.repr 1760227200000 ++ "_" ++
      pNoTsA.type?.getD "unknown" ++ "_" ++
      sanitizeId (pNoTsA.conversationId?.getD "no_conversation") ++ ".json" :=
  C9_missing_timestamp_ranking.1 pNoTsA 1760227200000 rfl

/-- C9 counterexample: a record saved without `event_timestamp` at
`Date.now() = 1760227200000` is ranked older, not newer, than a record
carrying the seconds timestamp 1760227200. -/
theorem C9_counterexample :
    pNoTsA.eventTimestamp? = none ∧ pSecB.eventTimestamp? = some 1760227200 ∧
    getAllConversations (saveConversationPayload pSecB 0
      (saveConversationPayload pNoTsA 1760227200000 [])) 2 = [pSecB, pNoTsA] :=
  ⟨rfl, rfl, by decide⟩

/-- C10 (amended): saving sanitizes the id inside the filename while
`getConversationById` matches the caller's raw id against filenames.  For a
payload whose conversation id contains a character outside `[A-Za-z0-9_-]`,
a lookup with the sanitized form always finds the saved record, and a
lookup with the raw id finds nothing provided the raw id is not a substring
of the derived filename — being absent from the sanitized id alone is not
enough, since the separator characters, timestamp, type and the `.json`
suffix can recreate the raw id (see the counterexample `"n.json"`). -/
theorem C10_raw_id_lookup :
    ∀ (p : Payload) (nowMs : Nat) (C : String),
      p.conversationId? = some C →
      C.data.all isSafeFilenameChar = false →
      (strIncludes (getFilename p nowMs) C = false →
        getConversationById (saveConversationPayload p nowMs []) C = none) ∧
      getConversationById (saveConversationPayload p nowMs []) (sanitizeId C) = some p := by
  intro p nowMs C hc _
  have hsave : saveConversationPayload p nowMs [] = [(getFilename p nowMs, some p)] := rfl
  constructor
  · intro hni
    have hm : matchedFiles [(getFilename p nowMs, some p)] C = [] := by
      unfold matchedFiles
      have hf : List.filter (fun f => strIncludes f C && strEndsWith f ".json")
          [getFilename p nowMs] = [] := by
        simp [List.filter, hni]
      rw [show (([(getFilename p nowMs, some p)] : Store).map Prod.fst) =
        [getFilename p nowMs] from rfl, hf]
      rfl
    unfold getConversationById
    rw [hsave, hm]
  · have hinc : strIncludes (getFilename p nowMs) (sanitizeId C) = true := by
      unfold strIncludes
      apply strIncludesCore_of_infix
      refine ⟨(Nat.repr (p.eventTimestamp?.getD nowMs)).data ++ "_".data ++
        (p.type?.getD "unknown").data ++ "_".data, ".json".data, ?_⟩
      simp [getFilename, hc, strData_append, List.append_assoc]
    have hend : strEndsWith (getFilename p nowMs) ".json" = true := by
      unfold strEndsWith
      rw [List.isSuffixOf_iff_suffix]
      refine ⟨(Nat.repr (p.eventTimestamp?.getD nowMs)).data ++ "_".data ++
        (p.type?.getD "unknown").data ++ "_".data ++ (sanitizeId C).data, ?_⟩
      simp [getFilename, hc, strData_append, List.append_assoc]
    have hm : matchedFiles [(getFilename p nowMs, some p)] (sanitizeId C) =
        [getFilename p nowMs] := by
      unfold matchedFiles
      have hf : List.filter (fun f => strIncludes f (sanitizeId C) && strEndsWith f ".json")
          [getFilename p nowMs] = [getFilename p nowMs] := by
        simp [List.filter, hinc, hend]
      rw [show (([(getFilename p nowMs, some p)] : Store).map Prod.fst) =
        [getFilename p nowMs] from rfl, hf]
      rfl
    unfold getConversationById
    rw [hsave, hm]
    dsimp only
    simp [List.lookup]

/-- C10 witness: the id `"a/b"` is stored under the sanitized component
`"a_b"`; looking it up by the raw id finds nothing, by the sanitized form
finds the record. -/
theorem C10_witness :
    getConversationById (saveConversationPayload pAB 0 []) "a/b" = none ∧
    getConversationById (saveConversationPayload pAB 0 []) (sanitizeId "a/b") = some pAB := by
  have h := C10_raw_id_lookup pAB 0 "a/b" rfl (by decide)
  exact ⟨h.1 (by decide), h.2⟩

/-- C10 counterexample: the raw id `"n.json"` contains `.` (outside the
safe class) and is not a substring of its sanitized form `"n_json"`, yet a
raw-id lookup after saving finds the record, because the filename
`"5_t_n_json.json"` recreates `"n.json"` across the sanitized id and the
`.json` suffix — the original claim predicted not-found. -/
theorem C10_counterexample :
    ("n.json".data.all isSafeFilenameChar = false) ∧
    strIncludes (sanitizeId "n.json") "n.json" = false ∧
    getConversationById (saveConversationPayload pNJ 0 []) "n.json" = some pNJ :=
  ⟨by decide, by decide, by decide⟩
